import Mathlib

/-!
Verification of the substrate-exchange JSON-RPC shim.

The development shallowly embeds the two RPC operations of
`src/src/lib.rs` (`RpcImpl::account_balance`, `RpcImpl::transfer_balance`)
over an abstract environment standing for the external chain client and
the external crypto-string parsers (suri / ss58), and embeds concretely
the amount codec (`u128`'s `FromStr` / `Display`, since `Balance = u128`
in `src/src/main.rs`).  The spec's nonce-tracked transfer submission
protocol (spec section 4.2), whose nonce cache and per-address lock are
not present under `src/` (the nonce handling sits behind the external
client call `self.0.xt(pair, T::extra)`), is modelled from the spec as a
small interleaving machine.
-/

/-! ## Amount codec: embedding of Rust `u128::from_str` and `Display` -/

/-- Error kinds of Rust's `core::num::ParseIntError` reachable when
parsing a `u128` in base 10. -/
inductive IntErrorKind : Type
  | empty
  | invalidDigit
  | posOverflow
deriving DecidableEq

/-- Rendering of `format!("\x7b:?\x7d", err)` for a `ParseIntError`,
as produced by the `details` argument at src/src/lib.rs:131. -/
def debugIntError : IntErrorKind → String
  | .empty => "ParseIntError \x7b kind: Empty \x7d"
  | .invalidDigit => "ParseIntError \x7b kind: InvalidDigit \x7d"
  | .posOverflow => "ParseIntError \x7b kind: PosOverflow \x7d"

/-- Digit loop of Rust's `from_str_radix` at radix 10: consume ASCII
digits left to right, accumulating `acc * 10 + d`, failing with
`InvalidDigit` on a non-digit and with `PosOverflow` as soon as the
checked arithmetic would leave the `u128` range. -/
def u128FromStrCore : List Char → Nat → Except IntErrorKind Nat
  | [], acc => .ok acc
  | c :: cs, acc =>
    if '0' ≤ c ∧ c ≤ '9' then
      if acc * 10 + (c.toNat - 48) < 2 ^ 128 then
        u128FromStrCore cs (acc * 10 + (c.toNat - 48))
      else .error .posOverflow
    else .error .invalidDigit

/-- Embedding of `<u128 as FromStr>::from_str`, the parser behind
`amount.parse()` at src/src/lib.rs:125 (`Balance = u128` per
src/src/main.rs): an empty string is `Empty`, one optional leading `+`
is stripped, the rest must be decimal digits fitting 128 bits. -/
def u128FromStr (s : String) : Except IntErrorKind Nat :=
  if s.data.isEmpty then .error .empty
  else if (if s.data.head? = some '+' then s.data.tail else s.data).isEmpty then
    .error .empty
  else u128FromStrCore (if s.data.head? = some '+' then s.data.tail else s.data) 0

/-- The ASCII character of a decimal digit, as emitted by Rust's
`Display` for unsigned integers. -/
def digitChar : Nat → Char
  | 0 => '0'
  | 1 => '1'
  | 2 => '2'
  | 3 => '3'
  | 4 => '4'
  | 5 => '5'
  | 6 => '6'
  | 7 => '7'
  | 8 => '8'
  | _ => '9'

/-- Decimal digit list of a natural number, most significant first:
the digit sequence `format!("\x7b\x7d", n)` prints for a `u128`. -/
def natDigits (n : Nat) : List Char :=
  if n < 10 then [digitChar n]
  else natDigits (n / 10) ++ [digitChar (n % 10)]
decreasing_by exact Nat.div_lt_self (by omega) (by omega)

/-- Embedding of `format!("\x7b\x7d", balance)` at src/src/lib.rs:93:
the decimal rendering of a `u128`. -/
def u128Display (n : Nat) : String :=
  String.mk (natDigits n)

theorem u128FromStrCore_append (xs ys : List Char) (acc : Nat) :
    u128FromStrCore (xs ++ ys) acc =
      (u128FromStrCore xs acc).bind (fun a => u128FromStrCore ys a) := by
  induction xs generalizing acc with
  | nil => simp [u128FromStrCore, Except.bind]
  | cons c cs ih =>
    simp only [List.cons_append, u128FromStrCore]
    split
    · split
      · exact ih _
      · simp [Except.bind]
    · simp [Except.bind]

theorem digitChar_spec (k : Nat) (hk : k < 10) :
    '0' ≤ digitChar k ∧ digitChar k ≤ '9' ∧ (digitChar k).toNat - 48 = k := by
  interval_cases k <;> exact ⟨by decide, by decide, by decide⟩

theorem natDigits_head (n : Nat) :
    ∃ c cs, natDigits n = c :: cs ∧ '0' ≤ c ∧ c ≤ '9' := by
  induction n using Nat.strong_induction_on with
  | _ n ih =>
    rw [natDigits]
    split
    · rename_i h
      exact ⟨digitChar n, [], rfl, (digitChar_spec n h).1, (digitChar_spec n h).2.1⟩
    · rename_i h
      obtain ⟨c, cs, hc, h1, h2⟩ := ih (n / 10) (Nat.div_lt_self (by omega) (by omega))
      exact ⟨c, cs ++ [digitChar (n % 10)], by rw [hc]; simp, h1, h2⟩

theorem u128FromStrCore_natDigits (n : Nat) : ∀ acc : Nat,
    acc * 10 ^ (natDigits n).length + n < 2 ^ 128 →
    u128FromStrCore (natDigits n) acc =
      .ok (acc * 10 ^ (natDigits n).length + n) := by
  induction n using Nat.strong_induction_on with
  | _ n ih =>
    intro acc hbound
    rw [natDigits] at hbound ⊢
    split
    · rename_i h
      obtain ⟨hd1, hd2, hd3⟩ := digitChar_spec n h
      rw [if_pos h] at hbound
      simp only [u128FromStrCore, List.length_cons, List.length_nil, Nat.zero_add,
        pow_one] at hbound ⊢
      rw [if_pos ⟨hd1, hd2⟩, hd3, if_pos hbound]
    · rename_i h
      have hlt : n / 10 < n := Nat.div_lt_self (by omega) (by omega)
      obtain ⟨hd1, hd2, hd3⟩ := digitChar_spec (n % 10) (Nat.mod_lt n (by omega))
      rw [if_neg h] at hbound
      simp only [List.length_append, List.length_cons, List.length_nil,
        Nat.zero_add] at hbound ⊢
      have hpow : acc * 10 ^ ((natDigits (n / 10)).length + 1)
          = acc * 10 ^ (natDigits (n / 10)).length * 10 := by ring
      rw [hpow] at hbound ⊢
      have hsub : acc * 10 ^ (natDigits (n / 10)).length + n / 10 < 2 ^ 128 := by
        omega
      rw [u128FromStrCore_append, ih (n / 10) hlt acc hsub]
      simp only [Except.bind, u128FromStrCore]
      rw [if_pos ⟨hd1, hd2⟩, hd3]
      have heq : (acc * 10 ^ (natDigits (n / 10)).length + n / 10) * 10 + n % 10
          = acc * 10 ^ (natDigits (n / 10)).length * 10 + n := by omega
      rw [heq, if_pos hbound]

theorem u128FromStrCore_lt (ds : List Char) : ∀ acc v : Nat,
    acc < 2 ^ 128 → u128FromStrCore ds acc = .ok v → v < 2 ^ 128 := by
  induction ds with
  | nil =>
    intro acc v hacc h
    simp [u128FromStrCore] at h
    omega
  | cons c cs ih =>
    intro acc v hacc h
    simp only [u128FromStrCore] at h
    split at h
    · split at h
      · exact ih _ v (by omega) h
      · exact absurd h (by simp)
    · exact absurd h (by simp)

theorem u128FromStr_lt (s : String) (v : Nat) (h : u128FromStr s = .ok v) :
    v < 2 ^ 128 := by
  rw [u128FromStr] at h
  repeat' split at h
  all_goals
    first
      | exact u128FromStrCore_lt _ 0 v (by norm_num) h
      | exact absurd h (by simp)

/-- C7: for every well-formed amount string `s` that the balance parser
(`amount.parse::<u128>()` at src/src/lib.rs:125) accepts as the value
`v`, rendering `v` the way `account_balance` renders balances
(`format!` at src/src/lib.rs:93) and parsing the rendering again yields
the same value `v`: the amount codec round-trips. -/
theorem amount_roundtrip (s : String) (v : Nat)
    (h : u128FromStr s = .ok v) :
    u128FromStr (u128Display v) = .ok v := by
  have hv : v < 2 ^ 128 := u128FromStr_lt s v h
  obtain ⟨c, cs, hc, h1, h2⟩ := natDigits_head v
  have hdata : (u128Display v).data = natDigits v := rfl
  have hplus : ¬ ((c :: cs).head? = some '+') := by
    simp only [List.head?, Option.some.injEq]
    intro hcp
    subst hcp
    exact absurd h1 (by decide)
  rw [u128FromStr, hdata, hc]
  rw [if_neg (show ¬ ((c :: cs).isEmpty = true) by simp), if_neg hplus,
    if_neg (show ¬ ((c :: cs).isEmpty = true) by simp), ← hc]
  have hcore := u128FromStrCore_natDigits v 0 (by simpa using hv)
  simpa using hcore

/-- Closed instance of `amount_roundtrip` at the concrete decimal
string "42". -/
theorem amount_roundtrip_witness :
    u128FromStr "42" = .ok 42 ∧ u128FromStr (u128Display 42) = .ok 42 :=
  ⟨by rfl, amount_roundtrip "42" 42 (by rfl)⟩

/-! ## The RPC surface of `src/src/lib.rs`

The two operations are embedded over an abstract environment `Env`
standing for the generic chain parameters and the external `subxt`
client: the suri / ss58 string parsers (`Pair::from_string`,
`Public::from_string` from substrate-primitives), the `Into`
conversions, the runtime metadata, the storage fetch, and the
extrinsic build/submit pipeline.  A `.expect` on a metadata lookup is
embedded as a distinct `panicked` outcome carrying the expect message;
the network interactions performed and the server-side log lines are
recorded alongside the outcome. -/

/-- Embedding of `jsonrpc_core::Error` values produced in
src/src/lib.rs: `invalid_params_with_details(message, details)` and
`internal_error()` (which carries no detail of the failure). -/
inductive RpcError : Type
  | invalidParams (message : String) (details : String)
  | internalError
deriving DecidableEq

/-- Result of one RPC handler: a returned value, a returned
`jsonrpc_core::Error`, or a Rust panic (`.expect`) with its message. -/
inductive Outcome (α : Type) : Type
  | ok (a : α)
  | err (e : RpcError)
  | panicked (msg : String)
deriving DecidableEq

/-- A server-side log line: `log::error!` or `log::info!`. -/
inductive LogItem : Type
  | logError (s : String)
  | logInfo (s : String)
deriving DecidableEq

/-- A network interaction with the external chain client: a storage
fetch (`fetch_or_default`), the extrinsic build (`self.0.xt`, which
performs the nonce lookup inside the client), or a submission. -/
inductive Effect (StorageKey EncodedCall Pair : Type) : Type
  | fetch (key : StorageKey)
  | xt (pair : Pair)
  | submit (call : EncodedCall)
deriving DecidableEq

/-- What one RPC handler call produced: its outcome, the network
interactions it performed (in order), and the log lines it emitted. -/
structure Res (ε α : Type) : Type where
  outcome : Outcome α
  net : List ε
  log : List LogItem
deriving DecidableEq

/-- Metadata of a map-typed storage entry: `.map()` succeeded and
`.key(&account)` computes the storage key. -/
structure MapMeta (AccountId StorageKey : Type) : Type where
  key : AccountId → StorageKey

/-- Metadata of a storage entry; `map` is `none` when the entry is not
map-typed (so `.map()` fails). -/
structure StorageMeta (AccountId StorageKey : Type) : Type where
  map : Option (MapMeta AccountId StorageKey)

/-- The argument of `Call::transfer::<T>(dest, value)` built at
src/src/lib.rs:137. -/
structure TransferCall (Public : Type) : Type where
  dest : Public
  value : Nat

/-- Metadata of a runtime module: storage lookup by name, and call
encoding (`module.call(transfer)`). -/
structure ModuleMeta (Public AccountId StorageKey EncodedCall : Type) : Type where
  storage : String → Option (StorageMeta AccountId StorageKey)
  call : TransferCall Public → EncodedCall

/-- The abstract environment: chain-generic parsers and conversions
plus the external `subxt` client (`self.0`). Parse failures carry the
`format!("\x7b:?\x7d", err)` rendering of the external error. -/
structure Env (Pair Public AccountId StorageKey XtB EncodedCall Hash : Type) :
    Type where
  pairFromString : String → Except String Pair
  publicFromString : String → Except String Public
  intoAccount : Public → AccountId
  moduleMeta : String → Option (ModuleMeta Public AccountId StorageKey EncodedCall)
  fetchRaw : StorageKey → Except String (Option Nat)
  xtBuild : Pair → Except String XtB
  submitXt : XtB → EncodedCall → Except String Hash
  debugHash : Hash → String

/-- Embedding of the client's `fetch_or_default::<Balance>` used at
src/src/lib.rs:90: a raw storage read that substitutes the `Balance`
default `0` for an absent entry, or fails with a transport error. -/
def fetch_or_default {P Pu A K X E H : Type} (env : Env P Pu A K X E H)
    (key : K) : Except String Nat :=
  (env.fetchRaw key).map (fun o => o.getD 0)

/-- Embedding of `RpcImpl::account_balance` (src/src/lib.rs:64-99):
parse the ss58 address, walk the metadata to the `FreeBalance` map key
(panicking via `.expect` when the metadata lacks it), fetch the
balance or its default, and render it; transport failures are logged
and reported as `internal_error`. -/
def account_balance {P Pu A K X E H : Type} (env : Env P Pu A K X E H)
    (of : String) : Res (Effect K E P) String :=
  match env.publicFromString of with
  | .error err =>
    ⟨.err (.invalidParams "Expected a ss58 encoded public key." err), [], []⟩
  | .ok public =>
    match env.moduleMeta "Balances" with
    | none => ⟨.panicked "runtime has srml_balances module", [], []⟩
    | some m =>
      match m.storage "FreeBalance" with
      | none => ⟨.panicked "srml_balances has a free balance", [], []⟩
      | some st =>
        match st.map with
        | none => ⟨.panicked "free balance is a map", [], []⟩
        | some mp =>
          match fetch_or_default env (mp.key (env.intoAccount public)) with
          | .ok balance =>
            ⟨.ok (u128Display balance), [.fetch (mp.key (env.intoAccount public))], []⟩
          | .error e =>
            ⟨.err .internalError, [.fetch (mp.key (env.intoAccount public))],
              [.logError e]⟩

/-- Embedding of `RpcImpl::transfer_balance` (src/src/lib.rs:101-152):
parse the suri signing string, the ss58 destination, and the amount,
in that order, each failing with its own `invalid_params` error; then
build the transfer call through the metadata (panicking when the
`Balances` module is absent) and run the lazy `xt`/`submit` pipeline,
logging and masking client failures as `internal_error`. -/
def transfer_balance {P Pu A K X E H : Type} (env : Env P Pu A K X E H)
    (fromStr toStr amount : String) : Res (Effect K E P) Unit :=
  match env.pairFromString fromStr with
  | .error err =>
    ⟨.err (.invalidParams "Expected a suri encoded private key." err), [], []⟩
  | .ok pair =>
    match env.publicFromString toStr with
    | .error err =>
      ⟨.err (.invalidParams "Expected a ss58 encoded public key." err), [], []⟩
    | .ok public =>
      match u128FromStr amount with
      | .error err =>
        ⟨.err (.invalidParams "Expected a hex encoded balance."
          (debugIntError err)), [], []⟩
      | .ok balance =>
        match env.moduleMeta "Balances" with
        | none => ⟨.panicked "runtime has srml_balances module", [], []⟩
        | some m =>
          match env.xtBuild pair with
          | .error e => ⟨.err .internalError, [.xt pair], [.logError e]⟩
          | .ok xtb =>
            match env.submitXt xtb (m.call ⟨public, balance⟩) with
            | .error e =>
              ⟨.err .internalError, [.xt pair, .submit (m.call ⟨public, balance⟩)],
                [.logError e]⟩
            | .ok h =>
              ⟨.ok (), [.xt pair, .submit (m.call ⟨public, balance⟩)],
                [.logInfo (env.debugHash h)]⟩

/-- A concrete happy-path environment over `Nat` carriers, used by the
closed witnesses: "//Alice" is the one valid suri, "5Good" the one
valid ss58 address, the metadata has a map-typed
`Balances/FreeBalance` entry, storage is empty, and the client
accepts every extrinsic. -/
def sampleEnv : Env Nat Nat Nat Nat Nat Nat Nat where
  pairFromString s := if s = "//Alice" then .ok 2 else .error "BadSuri"
  publicFromString s := if s = "5Good" then .ok 1 else .error "BadSs58"
  intoAccount a := a
  moduleMeta name :=
    if name = "Balances" then
      some ⟨fun entry => if entry = "FreeBalance" then some ⟨some ⟨fun a => a⟩⟩
        else none, fun c => c.value⟩
    else none
  fetchRaw _ := .ok none
  xtBuild p := .ok p
  submitXt _ _ := .ok 0
  debugHash _ := "0x00"

/-- Environment whose storage fetch fails with a transport error. -/
def failFetchEnv : Env Nat Nat Nat Nat Nat Nat Nat :=
  { sampleEnv with fetchRaw := fun _ => .error "Rpc(Transport(ConnectionClosed))" }

/-- Environment whose extrinsic build (`self.0.xt`) fails. -/
def failXtEnv : Env Nat Nat Nat Nat Nat Nat Nat :=
  { sampleEnv with xtBuild := fun _ => .error "Rpc(Transport(XtBuildFailed))" }

/-- Environment whose submission fails after a successful build. -/
def failSubmitEnv : Env Nat Nat Nat Nat Nat Nat Nat :=
  { sampleEnv with submitXt := fun _ _ => .error "Rpc(Transport(SubmitFailed))" }

/-- Environment whose runtime metadata lacks the `Balances` module. -/
def noModuleEnv : Env Nat Nat Nat Nat Nat Nat Nat :=
  { sampleEnv with moduleMeta := fun _ => none }

/-- A `Balances` module metadata lacking any storage entry. -/
def noStorageModule : ModuleMeta Nat Nat Nat Nat :=
  ⟨fun _ => none, fun c => c.value⟩

/-- A `Balances` module metadata whose `FreeBalance` entry is not
map-typed. -/
def noMapModule : ModuleMeta Nat Nat Nat Nat :=
  ⟨fun entry => if entry = "FreeBalance" then some ⟨none⟩ else none,
    fun c => c.value⟩

/-- Environment whose `Balances` module lacks a `FreeBalance` storage
entry. -/
def noStorageEnv : Env Nat Nat Nat Nat Nat Nat Nat :=
  { sampleEnv with moduleMeta := fun name =>
      if name = "Balances" then some noStorageModule else none }

/-- Environment whose `FreeBalance` storage entry is not map-typed. -/
def noMapEnv : Env Nat Nat Nat Nat Nat Nat Nat :=
  { sampleEnv with moduleMeta := fun name =>
      if name = "Balances" then some noMapModule else none }

/-- C3: an input string that the ss58 decoder rejects makes
`account_balance` fail with the address-validation `invalid_params`
error, and makes `transfer_balance` (with a well-formed signing input)
fail with the same address-validation error; in both cases the
recorded network-interaction list is empty — no balance fetch, no
nonce lookup, no submission. -/
theorem invalid_address_rejected_without_network {P Pu A K X E H : Type}
    (env : Env P Pu A K X E H) (addr fromStr amount : String) (e : String)
    (pair : P)
    (he : env.publicFromString addr = .error e)
    (hp : env.pairFromString fromStr = .ok pair) :
    account_balance env addr =
      ⟨.err (.invalidParams "Expected a ss58 encoded public key." e), [], []⟩ ∧
    transfer_balance env fromStr addr amount =
      ⟨.err (.invalidParams "Expected a ss58 encoded public key." e), [], []⟩ := by
  constructor
  · simp [account_balance, he]
  · simp [transfer_balance, hp, he]

/-- Closed instance of `invalid_address_rejected_without_network` at a
concrete malformed address. -/
theorem invalid_address_rejected_without_network_witness :
    sampleEnv.publicFromString "bogus" = .error "BadSs58" ∧
    sampleEnv.pairFromString "//Alice" = .ok 2 ∧
    account_balance sampleEnv "bogus" =
      ⟨.err (.invalidParams "Expected a ss58 encoded public key." "BadSs58"),
        [], []⟩ ∧
    transfer_balance sampleEnv "//Alice" "bogus" "10" =
      ⟨.err (.invalidParams "Expected a ss58 encoded public key." "BadSs58"),
        [], []⟩ :=
  ⟨rfl, rfl,
    (invalid_address_rejected_without_network sampleEnv "bogus" "//Alice" "10"
      "BadSs58" 2 rfl rfl).1,
    (invalid_address_rejected_without_network sampleEnv "bogus" "//Alice" "10"
      "BadSs58" 2 rfl rfl).2⟩

/-- C4: for a well-formed address, with the metadata lookups
succeeding, an absent storage entry makes `account_balance` succeed
with the default balance `0` rendered as a string ("0"), and every
successful query returns the decimal rendering of the fetched
balance. -/
theorem account_balance_default_zero {P Pu A K X E H : Type}
    (env : Env P Pu A K X E H) (of : String) (pub : Pu)
    (m : ModuleMeta Pu A K E) (sm : StorageMeta A K) (mp : MapMeta A K)
    (hpub : env.publicFromString of = .ok pub)
    (hmod : env.moduleMeta "Balances" = some m)
    (hsm : m.storage "FreeBalance" = some sm)
    (hmp : sm.map = some mp) :
    (env.fetchRaw (mp.key (env.intoAccount pub)) = .ok none →
      account_balance env of =
        ⟨.ok (u128Display 0), [.fetch (mp.key (env.intoAccount pub))], []⟩) ∧
    (∀ b, env.fetchRaw (mp.key (env.intoAccount pub)) = .ok (some b) →
      (account_balance env of).outcome = .ok (u128Display b)) ∧
    u128Display 0 = "0" := by
  have hz : natDigits 0 = ['0'] := by rw [natDigits]; norm_num [digitChar]
  refine ⟨?_, ?_, ?_⟩
  · intro hf
    simp [account_balance, fetch_or_default, hpub, hmod, hsm, hmp, hf, Except.map]
  · intro b hf
    simp [account_balance, fetch_or_default, hpub, hmod, hsm, hmp, hf, Except.map]
  · rw [u128Display, hz]

/-- Closed instance of `account_balance_default_zero` on the sample
environment, whose storage has no entry for the resolved account. -/
theorem account_balance_default_zero_witness :
    sampleEnv.fetchRaw 1 = .ok none ∧
    account_balance sampleEnv "5Good" =
      ⟨.ok (u128Display 0), [.fetch 1], []⟩ ∧
    u128Display 0 = "0" :=
  ⟨rfl,
    (account_balance_default_zero sampleEnv "5Good" 1
      ⟨fun entry => if entry = "FreeBalance" then some ⟨some ⟨fun a => a⟩⟩
        else none, fun c => c.value⟩
      ⟨some ⟨fun a => a⟩⟩ ⟨fun a => a⟩ rfl rfl rfl rfl).1 rfl,
    (account_balance_default_zero sampleEnv "5Good" 1
      ⟨fun entry => if entry = "FreeBalance" then some ⟨some ⟨fun a => a⟩⟩
        else none, fun c => c.value⟩
      ⟨some ⟨fun a => a⟩⟩ ⟨fun a => a⟩ rfl rfl rfl rfl).2.2⟩

/-- C5 (refuted: the four corners do not agree).  The amount parser is
`u128`'s `FromStr` (decimal only), the `account_balance` response and
the repository's own test encode balances in decimal, yet the
invalid-amount error message claims "Expected a hex encoded balance."
and the usage example in src/src/main.rs:109 passes the hex amount
"0xa": that very amount is rejected by the parser with `InvalidDigit`,
while the plain decimal "10" is accepted — the error message does not
state the format the parser actually accepts. -/
theorem amount_error_message_mismatch :
    u128FromStr "0xa" = .error .invalidDigit ∧
    u128FromStr "10" = .ok 10 ∧
    (transfer_balance sampleEnv "//Alice" "5Good" "0xa").outcome =
      .err (.invalidParams "Expected a hex encoded balance."
        (debugIntError .invalidDigit)) ∧
    (transfer_balance sampleEnv "//Alice" "5Good" "10").outcome = .ok () ∧
    (account_balance sampleEnv "5Good").outcome = .ok (u128Display 0) :=
  ⟨rfl, rfl, rfl, rfl, rfl⟩

/-- C6: every client-level failure occurring after input validation —
a storage fetch failure in `account_balance`, an extrinsic build
failure or a submission failure in `transfer_balance` — is logged in
full with `log::error!` and reported to the caller as the bare
`internal_error`, which carries no detail of the underlying
failure. -/
theorem transport_failure_internal_error_logged {P Pu A K X E H : Type}
    (env1 env2 env3 : Env P Pu A K X E H)
    (of fromStr toStr amount : String) (v : Nat)
    (pub : Pu) (m1 : ModuleMeta Pu A K E) (sm : StorageMeta A K)
    (mp : MapMeta A K) (e1 : String)
    (h1pub : env1.publicFromString of = .ok pub)
    (h1mod : env1.moduleMeta "Balances" = some m1)
    (h1sm : m1.storage "FreeBalance" = some sm)
    (h1mp : sm.map = some mp)
    (h1f : env1.fetchRaw (mp.key (env1.intoAccount pub)) = .error e1)
    (pair2 : P) (pub2 : Pu) (m2 : ModuleMeta Pu A K E) (e2 : String)
    (h2p : env2.pairFromString fromStr = .ok pair2)
    (h2q : env2.publicFromString toStr = .ok pub2)
    (h2a : u128FromStr amount = .ok v)
    (h2mod : env2.moduleMeta "Balances" = some m2)
    (h2x : env2.xtBuild pair2 = .error e2)
    (pair3 : P) (pub3 : Pu) (m3 : ModuleMeta Pu A K E) (xtb : X) (e3 : String)
    (h3p : env3.pairFromString fromStr = .ok pair3)
    (h3q : env3.publicFromString toStr = .ok pub3)
    (h3mod : env3.moduleMeta "Balances" = some m3)
    (h3x : env3.xtBuild pair3 = .ok xtb)
    (h3s : env3.submitXt xtb (m3.call ⟨pub3, v⟩) = .error e3) :
    account_balance env1 of =
      ⟨.err .internalError, [.fetch (mp.key (env1.intoAccount pub))],
        [.logError e1]⟩ ∧
    transfer_balance env2 fromStr toStr amount =
      ⟨.err .internalError, [.xt pair2], [.logError e2]⟩ ∧
    transfer_balance env3 fromStr toStr amount =
      ⟨.err .internalError, [.xt pair3, .submit (m3.call ⟨pub3, v⟩)],
        [.logError e3]⟩ := by
  refine ⟨?_, ?_, ?_⟩
  · simp [account_balance, fetch_or_default, h1pub, h1mod, h1sm, h1mp, h1f,
      Except.map]
  · simp [transfer_balance, h2p, h2q, h2a, h2mod, h2x]
  · simp [transfer_balance, h3p, h3q, h2a, h3mod, h3x, h3s]

/-- Closed instance of `transport_failure_internal_error_logged` on
the three failing sample environments. -/
theorem transport_failure_internal_error_logged_witness :
    account_balance failFetchEnv "5Good" =
      ⟨.err .internalError, [.fetch 1],
        [.logError "Rpc(Transport(ConnectionClosed))"]⟩ ∧
    transfer_balance failXtEnv "//Alice" "5Good" "10" =
      ⟨.err .internalError, [.xt 2],
        [.logError "Rpc(Transport(XtBuildFailed))"]⟩ ∧
    transfer_balance failSubmitEnv "//Alice" "5Good" "10" =
      ⟨.err .internalError, [.xt 2, .submit 10],
        [.logError "Rpc(Transport(SubmitFailed))"]⟩ :=
  transport_failure_internal_error_logged failFetchEnv failXtEnv failSubmitEnv
    "5Good" "//Alice" "5Good" "10" 10 1
    ⟨fun entry => if entry = "FreeBalance" then some ⟨some ⟨fun a => a⟩⟩
      else none, fun c => c.value⟩
    ⟨some ⟨fun a => a⟩⟩ ⟨fun a => a⟩ "Rpc(Transport(ConnectionClosed))"
    rfl rfl rfl rfl rfl
    2 1
    ⟨fun entry => if entry = "FreeBalance" then some ⟨some ⟨fun a => a⟩⟩
      else none, fun c => c.value⟩
    "Rpc(Transport(XtBuildFailed))" rfl rfl rfl rfl rfl
    2 1
    ⟨fun entry => if entry = "FreeBalance" then some ⟨some ⟨fun a => a⟩⟩
      else none, fun c => c.value⟩
    2 "Rpc(Transport(SubmitFailed))" rfl rfl rfl rfl rfl

/-- C8: an amount string the balance parser rejects (such as "0xg")
makes `transfer_balance` (with well-formed signing and destination
inputs) fail with the amount-specific `invalid_params` error, whose
message names the balance field and differs from both the
signing-input message and the address message. -/
theorem invalid_amount_specific_error {P Pu A K X E H : Type}
    (env : Env P Pu A K X E H) (fromStr toStr amount : String)
    (pair : P) (pub : Pu) (e : IntErrorKind)
    (hp : env.pairFromString fromStr = .ok pair)
    (hq : env.publicFromString toStr = .ok pub)
    (ha : u128FromStr amount = .error e) :
    transfer_balance env fromStr toStr amount =
      ⟨.err (.invalidParams "Expected a hex encoded balance."
        (debugIntError e)), [], []⟩ ∧
    ("Expected a hex encoded balance." : String) ≠
      "Expected a suri encoded private key." ∧
    ("Expected a hex encoded balance." : String) ≠
      "Expected a ss58 encoded public key." := by
  refine ⟨?_, by decide, by decide⟩
  simp [transfer_balance, hp, hq, ha]

/-- Closed instance of `invalid_amount_specific_error` at the spec's
scenario input "0xg". -/
theorem invalid_amount_specific_error_witness :
    u128FromStr "0xg" = .error .invalidDigit ∧
    transfer_balance sampleEnv "//Alice" "5Good" "0xg" =
      ⟨.err (.invalidParams "Expected a hex encoded balance."
        (debugIntError .invalidDigit)), [], []⟩ :=
  ⟨rfl,
    (invalid_amount_specific_error sampleEnv "//Alice" "5Good" "0xg" 2 1
      .invalidDigit rfl rfl rfl).1⟩

/-- C9: `transfer_balance` validates the signing input first: whenever
the suri parser rejects the signing string, the reported error is the
signing-input `invalid_params` error — whatever the destination and
amount strings are — and no network interaction (no extrinsic build,
no submission) takes place. -/
theorem transfer_validation_order {P Pu A K X E H : Type}
    (env : Env P Pu A K X E H) (fromStr toStr amount : String) (e : String)
    (hp : env.pairFromString fromStr = .error e) :
    transfer_balance env fromStr toStr amount =
      ⟨.err (.invalidParams "Expected a suri encoded private key." e),
        [], []⟩ := by
  simp [transfer_balance, hp]

/-- Closed instance of `transfer_validation_order` where the
destination and the amount are malformed as well: the signing-input
error wins. -/
theorem transfer_validation_order_witness :
    sampleEnv.pairFromString "junk" = .error "BadSuri" ∧
    transfer_balance sampleEnv "junk" "alsojunk" "0xg" =
      ⟨.err (.invalidParams "Expected a suri encoded private key." "BadSuri"),
        [], []⟩ :=
  ⟨rfl, transfer_validation_order sampleEnv "junk" "alsojunk" "0xg" "BadSuri" rfl⟩

/-- C10: the error domain is not total over client configurations —
with runtime metadata lacking the `Balances` module both operations
panic through `.expect` instead of returning an RPC error, and
`account_balance` also panics when the `FreeBalance` entry is missing
or not map-typed. -/
theorem missing_metadata_panics :
    (account_balance noModuleEnv "5Good").outcome =
      .panicked "runtime has srml_balances module" ∧
    (transfer_balance noModuleEnv "//Alice" "5Good" "10").outcome =
      .panicked "runtime has srml_balances module" ∧
    (account_balance noStorageEnv "5Good").outcome =
      .panicked "srml_balances has a free balance" ∧
    (account_balance noMapEnv "5Good").outcome =
      .panicked "free balance is a map" :=
  ⟨rfl, rfl, rfl, rfl⟩

/-! ## The nonce-tracked transfer submission protocol

Modelled from the spec: the Transfer Submitter of spec section 4.2
(read-nonce / build / submit / record-nonce under per-address
exclusive access) has no counterpart under `src/` — the nonce handling
of this repository sits behind the external client call
`self.0.xt(pair, T::extra)` at src/src/lib.rs:135 — so it is embedded
here from the spec's words.  Two submitters for the same signing
identity are run as an interleaving machine: each thread executes
acquire-lock, read-nonce (cached value, or the chain nonce `N` on a
cache miss), submit (with the nonce it read), bump the cache to
nonce + 1, release-lock; the scheduler picks any interleaving the lock
admits. -/

/-- Local state of one submitter thread: its program counter
(0 acquire, 1 read, 2 submit, 3 bump, 4 release, 5 done) and the
nonce it read. -/
structure TState : Type where
  pc : Nat
  loc : Nat
deriving DecidableEq

/-- Global state of two concurrent submissions for the same signing
identity: the per-address lock (holding the owning thread), the
NonceCache entry for the shared address, the two threads, and the
instructions submitted so far as (thread, nonce) pairs in submission
order. -/
structure CState : Type where
  lock : Option Bool
  cache : Option Nat
  t0 : TState
  t1 : TState
  subs : List (Bool × Nat)
deriving DecidableEq

/-- Modelled from the spec: one atomic step of thread `i` of the
Transfer Submitter protocol, with `N` the chain nonce returned by the
external client on a cache miss.  `none` means the step is not
enabled (the lock is held by the other thread, or the thread is
done). -/
def stepThread (N : Nat) (s : CState) (i : Bool) : Option CState :=
  let t := if i then s.t1 else s.t0
  let set := fun (s' : CState) (t' : TState) =>
    if i then { s' with t1 := t' } else { s' with t0 := t' }
  if t.pc = 0 then
    match s.lock with
    | none => some (set { s with lock := some i } { t with pc := 1 })
    | some _ => none
  else if t.pc = 1 then
    some (set s { pc := 2, loc := s.cache.getD N })
  else if t.pc = 2 then
    some (set { s with subs := s.subs ++ [(i, t.loc)] } { t with pc := 3 })
  else if t.pc = 3 then
    some (set { s with cache := some (t.loc + 1) } { t with pc := 4 })
  else if t.pc = 4 then
    some (set { s with lock := none } { t with pc := 5 })
  else none

/-- Run a schedule: at each entry the named thread takes its next
step; an interleaving the lock refuses yields `none`. -/
def runSched (N : Nat) (sched : List Bool) (s : CState) : Option CState :=
  match sched with
  | [] => some s
  | i :: rest =>
    match stepThread N s i with
    | none => none
    | some s' => runSched N rest s'

/-- Initial state: lock free, cold nonce cache, both threads about to
acquire, nothing submitted. -/
def initState : CState :=
  ⟨none, none, ⟨0, 0⟩, ⟨0, 0⟩, []⟩

/-- All states reachable from `initState` under `stepThread`, for a
chain nonce `N`: the lock serialises the two critical sections, so a
run is one thread's five steps and then the other's. -/
def reachStates (N : Nat) : List CState :=
  [⟨none, none, ⟨0, 0⟩, ⟨0, 0⟩, []⟩,
   ⟨some false, none, ⟨1, 0⟩, ⟨0, 0⟩, []⟩,
   ⟨some false, none, ⟨2, N⟩, ⟨0, 0⟩, []⟩,
   ⟨some false, none, ⟨3, N⟩, ⟨0, 0⟩, [(false, N)]⟩,
   ⟨some false, some (N + 1), ⟨4, N⟩, ⟨0, 0⟩, [(false, N)]⟩,
   ⟨none, some (N + 1), ⟨5, N⟩, ⟨0, 0⟩, [(false, N)]⟩,
   ⟨some true, some (N + 1), ⟨5, N⟩, ⟨1, 0⟩, [(false, N)]⟩,
   ⟨some true, some (N + 1), ⟨5, N⟩, ⟨2, N + 1⟩, [(false, N)]⟩,
   ⟨some true, some (N + 1), ⟨5, N⟩, ⟨3, N + 1⟩, [(false, N), (true, N + 1)]⟩,
   ⟨some true, some (N + 2), ⟨5, N⟩, ⟨4, N + 1⟩, [(false, N), (true, N + 1)]⟩,
   ⟨none, some (N + 2), ⟨5, N⟩, ⟨5, N + 1⟩, [(false, N), (true, N + 1)]⟩,
   ⟨some true, none, ⟨0, 0⟩, ⟨1, 0⟩, []⟩,
   ⟨some true, none, ⟨0, 0⟩, ⟨2, N⟩, []⟩,
   ⟨some true, none, ⟨0, 0⟩, ⟨3, N⟩, [(true, N)]⟩,
   ⟨some true, some (N + 1), ⟨0, 0⟩, ⟨4, N⟩, [(true, N)]⟩,
   ⟨none, some (N + 1), ⟨0, 0⟩, ⟨5, N⟩, [(true, N)]⟩,
   ⟨some false, some (N + 1), ⟨1, 0⟩, ⟨5, N⟩, [(true, N)]⟩,
   ⟨some false, some (N + 1), ⟨2, N + 1⟩, ⟨5, N⟩, [(true, N)]⟩,
   ⟨some false, some (N + 1), ⟨3, N + 1⟩, ⟨5, N⟩, [(true, N), (false, N + 1)]⟩,
   ⟨some false, some (N + 2), ⟨4, N + 1⟩, ⟨5, N⟩, [(true, N), (false, N + 1)]⟩,
   ⟨none, some (N + 2), ⟨5, N + 1⟩, ⟨5, N⟩, [(true, N), (false, N + 1)]⟩]

theorem reach_step (N : Nat) (s s' : CState) (i : Bool)
    (hs : s ∈ reachStates N) (h : stepThread N s i = some s') :
    s' ∈ reachStates N := by
  simp only [reachStates, List.mem_cons, List.not_mem_nil, or_false] at hs
  rcases hs with h0 | h0 | h0 | h0 | h0 | h0 | h0 | h0 | h0 | h0 | h0 | h0 | h0
    | h0 | h0 | h0 | h0 | h0 | h0 | h0 | h0 <;>
    subst h0 <;> cases i <;>
    simp only [stepThread, Option.getD] at h <;>
    simp_all [reachStates]

theorem runSched_reach (N : Nat) (sched : List Bool) :
    ∀ s s', s ∈ reachStates N → runSched N sched s = some s' →
      s' ∈ reachStates N := by
  induction sched with
  | nil =>
    intro s s' hs h
    simp only [runSched, Option.some.injEq] at h
    exact h ▸ hs
  | cons i rest ih =>
    intro s s' hs h
    simp only [runSched] at h
    cases hstep : stepThread N s i with
    | none => rw [hstep] at h; exact absurd h (by simp)
    | some s1 =>
      rw [hstep] at h
      exact ih s1 s' (reach_step N s s1 i hs hstep) h

/-- C1: for two concurrent transfer submissions by the same signing
identity starting from chain nonce `N`, every complete interleaving
the per-address lock admits hands the chain client two signed
instructions carrying nonces `N` and `N + 1` (in either thread
order) — never the same nonce twice. -/
theorem transfer_nonce_no_reuse (N : Nat) (sched : List Bool) (s' : CState)
    (h : runSched N sched initState = some s')
    (h0 : s'.t0.pc = 5) (h1 : s'.t1.pc = 5) :
    s'.subs = [(false, N), (true, N + 1)] ∨
      s'.subs = [(true, N), (false, N + 1)] := by
  have hin : s' ∈ reachStates N :=
    runSched_reach N sched initState s' (by simp [reachStates, initState]) h
  simp only [reachStates, List.mem_cons, List.not_mem_nil, or_false] at hin
  rcases hin with h2 | h2 | h2 | h2 | h2 | h2 | h2 | h2 | h2 | h2 | h2 | h2 | h2
    | h2 | h2 | h2 | h2 | h2 | h2 | h2 | h2 <;> subst h2 <;> simp_all

/-- Closed instance of `transfer_nonce_no_reuse`: the two complete
five-step critical sections from chain nonce 7 yield submissions with
nonces 7 and 8. -/
theorem transfer_nonce_no_reuse_witness :
    ∃ s', runSched 7 [false, false, false, false, false,
        true, true, true, true, true] initState = some s' ∧
      s'.t0.pc = 5 ∧ s'.t1.pc = 5 ∧
      (s'.subs = [(false, 7), (true, 8)] ∨
        s'.subs = [(true, 7), (false, 8)]) := by
  have hrun : runSched 7 [false, false, false, false, false,
      true, true, true, true, true] initState =
      some ⟨none, some 9, ⟨5, 7⟩, ⟨5, 8⟩, [(false, 7), (true, 8)]⟩ := by decide
  exact ⟨_, hrun, rfl, rfl,
    transfer_nonce_no_reuse 7 _ _ hrun rfl rfl⟩

/-- A signed transfer instruction as the spec describes it: signing
identity's derived address, destination, amount, nonce. -/
structure Instr (Public : Type) : Type where
  source : Public
  dest : Public
  amount : Nat
  nonce : Nat
deriving DecidableEq

/-- Modelled from the spec: the sequential body of `submit_transfer`
(spec section 4.2 steps 1-6) — derive the identity's address, read
its cached nonce (or the chain nonce on a miss), build the instruction
with that nonce, and advance the cache entry to nonce + 1; the
asynchronous submission `outcome` is only reported (step 8), it is
never consulted for the cache update. -/
def submit_transfer {Pair Public Hash : Type} [DecidableEq Public]
    (getNonce : Public → Nat) (derive : Pair → Public)
    (cache : Public → Option Nat) (pair : Pair) (dest : Public)
    (amount : Nat) (outcome : Except String Hash) :
    (Public → Option Nat) × Instr Public × List LogItem :=
  let addr := derive pair
  let nonce := (cache addr).getD (getNonce addr)
  (fun a => if a = addr then some (nonce + 1) else cache a,
   ⟨addr, dest, amount, nonce⟩,
   match outcome with
   | .ok _ => [.logInfo "submitted"]
   | .error e => [.logError e])

/-- C2: when `submit_transfer` hands the client an instruction with
nonce `n`, the NonceCache entry for the sender's derived address is
advanced to `n + 1`, and neither the advanced cache nor the
instruction depends on the submission's asynchronous outcome (no
rollback on failure); moreover, in the interleaving machine the bump
has already happened right after the submit step, while the
per-address lock is still held. -/
theorem nonce_cache_optimistic_advance {Pair Public Hash : Type}
    [DecidableEq Public] (getNonce : Public → Nat) (derive : Pair → Public)
    (cache : Public → Option Nat) (pair : Pair) (dest : Public)
    (amount n N : Nat) (o o' : Except String Hash)
    (hn : (submit_transfer getNonce derive cache pair dest amount o).2.1.nonce
      = n) :
    (submit_transfer getNonce derive cache pair dest amount o).1 (derive pair)
      = some (n + 1) ∧
    (submit_transfer getNonce derive cache pair dest amount o).1
      = (submit_transfer getNonce derive cache pair dest amount o').1 ∧
    (submit_transfer getNonce derive cache pair dest amount o).2.1
      = (submit_transfer getNonce derive cache pair dest amount o').2.1 ∧
    runSched N [false, false, false, false] initState =
      some ⟨some false, some (N + 1), ⟨4, N⟩, ⟨0, 0⟩, [(false, N)]⟩ := by
  subst hn
  refine ⟨by simp [submit_transfer], rfl, rfl, rfl⟩

/-- Closed instance of `nonce_cache_optimistic_advance`: a cache entry
holding nonce 5 yields an instruction carrying 5 and a cache entry of
6, whether the submission outcome is a success or a failure. -/
theorem nonce_cache_optimistic_advance_witness :
    (submit_transfer (fun _ => 0) (fun p : Nat => p) (fun _ => some 5) 1 2 10
      (.ok (0 : Nat))).2.1.nonce = 5 ∧
    (submit_transfer (fun _ => 0) (fun p : Nat => p) (fun _ => some 5) 1 2 10
      (.ok (0 : Nat))).1 1 = some 6 ∧
    (submit_transfer (fun _ => 0) (fun p : Nat => p) (fun _ => some 5) 1 2 10
      (.ok (0 : Nat))).1
      = (submit_transfer (fun _ => 0) (fun p : Nat => p) (fun _ => some 5) 1 2 10
        ((.error "SubmitFailed" : Except String Nat))).1 :=
  ⟨rfl,
    (nonce_cache_optimistic_advance (fun _ => 0) (fun p : Nat => p)
      (fun _ => some 5) 1 2 10 5 3 (.ok 0) (.error "SubmitFailed" : Except String Nat) rfl).1,
    (nonce_cache_optimistic_advance (fun _ => 0) (fun p : Nat => p)
      (fun _ => some 5) 1 2 10 5 3 (.ok 0) (.error "SubmitFailed" : Except String Nat) rfl).2.1⟩
